import Mathlib

/-!
Verification of the asynchronous remote-job client of this repository
(submit, poll, download) against its specification.

The definitions below are a shallow embedding of:
  - src/audio/ai_minimax_tts_cli.py
      create_minimax_tts (submit), poll_minimax_task (poll loop),
      download_file (artifact fetch), and the main submit-then-poll flow;
  - src/audio/minimax_poll.py
      the submit step (lines 63-97), the poll loop (lines 106-156),
      the download step (lines 158-176), and the task-id resume branch;
  - src/audiototext/qwen_audio_processor.py
      transcribe_segment (lines 53-94).

Network interactions are modelled by oracles: a poll loop receives a
function from the attempt index to the event produced by that status
request (either a transport-level exception raised by the request call,
or a received response with its parsed JSON fields).  Python exceptions
are modelled as values of explicit error types; Python truthiness on the
relevant JSON values is modelled explicitly.
-/

/-- Python truthiness of an optional string: None and the empty string are
falsy, every other string is truthy. -/
def strTruthy : Option String → Bool
  | none => false
  | some s => s != ""

/-- Python `a or b` on optional strings: the left value when it is truthy,
otherwise the right value (which may itself be falsy). -/
def pyStrOr (a b : Option String) : Option String :=
  if strTruthy a then a else b

/-- A JSON scalar as treated by the submit code: absent/null, a string, or
an integer. -/
inductive PyVal
  | none
  | str (s : String)
  | int (n : Int)
deriving DecidableEq

/-- Python truthiness of a JSON scalar. -/
def PyVal.truthy : PyVal → Bool
  | .none => false
  | .str s => s != ""
  | .int n => n != 0

/-- Python `a or b` on JSON scalars. -/
def PyVal.pyOr (a b : PyVal) : PyVal :=
  if a.truthy then a else b

/-- The value of a decimal digit character, `none` otherwise. -/
def decDigit (c : Char) : Option Nat :=
  if '0' ≤ c ∧ c ≤ '9' then some (c.toNat - '0'.toNat) else none

/-- Reads a non-empty run of decimal digits into a number; `none` when a
non-digit appears or when no digit was read at all. -/
def decNat : List Char → Option Nat → Option Nat
  | [], acc => acc
  | c :: cs, acc =>
    match decDigit c, acc with
    | some d, some n => decNat cs (some (n * 10 + d))
    | some d, none => decNat cs (some d)
    | none, _ => none

/-- Python `int(s)` on a string: an optional sign followed by at least
one decimal digit; `none` models the ValueError raised otherwise. -/
def pyStrToInt (s : String) : Option Int :=
  match s.data with
  | [] => none
  | c :: cs =>
    if c = '-' then (decNat cs none).map (fun n => -(n : Int))
    else if c = '+' then (decNat cs none).map (fun n => (n : Int))
    else (decNat (c :: cs) none).map (fun n => (n : Int))

/-- Python `int(v)`: identity on integers, decimal parsing on strings
(`none` when `int` would raise `ValueError`), and `none` on null
(where `int` raises `TypeError`). -/
def pyIntOf : PyVal → Option Int
  | .int n => some n
  | .str s => pyStrToInt s
  | .none => none

/-- The fields of one parsed poll response that the loops read:
`data.get("status")`, `data.get("task_status")`, `data.get("file_id")`.
A response body that fails to parse as JSON yields `data = {}`, i.e. all
fields `none`. -/
structure RespData where
  status : Option String
  task_status : Option String
  file_id : Option String
deriving DecidableEq

/-- `status = data.get("status") or data.get("task_status")` — the
effective status string both loops branch on. -/
def effStatus (d : RespData) : Option String :=
  pyStrOr d.status d.task_status

/-- Python `s.lower()`, for the ASCII status strings the code compares:
lowercases every character. -/
def pyLower (s : String) : String :=
  ⟨s.data.map Char.toLower⟩

/-- The event produced by one status request: the request call raised a
transport-level exception (`requests.get` is outside any try block in
both loops), or a response was received. -/
inductive PollEvent
  | transport
  | resp (d : RespData)
deriving DecidableEq

/-- Classification of one received response by a poll loop body. -/
inductive StepRes
  | success (fid : String)
  | failed
  | cont
deriving DecidableEq

/-- Response classification of `poll_minimax_task`
(src/audio/ai_minimax_tts_cli.py lines 132-138):
`if status == "Success": if file_id: return file_id`
`elif status and status.lower() in ("failed", "error"): raise`. -/
def loop1Step (d : RespData) : StepRes :=
  if effStatus d = some "Success" then
    if strTruthy d.file_id then .success (d.file_id.getD "") else .cont
  else
    if strTruthy (effStatus d) = true ∧
        (pyLower ((effStatus d).getD "") = "failed" ∨
         pyLower ((effStatus d).getD "") = "error") then .failed
    else .cont

/-- Response classification of the src/audio/minimax_poll.py loop
(lines 119-126): `if status == "Success": if file_id: break`
`elif status in ("failed", "error", "Failed"): exit(1)`.
Note the failure comparison is against a literal set, not
case-insensitive. -/
def loop2Step (d : RespData) : StepRes :=
  if effStatus d = some "Success" then
    if strTruthy d.file_id then .success (d.file_id.getD "") else .cont
  else
    if effStatus d = some "failed" ∨ effStatus d = some "error" ∨
        effStatus d = some "Failed" then .failed
    else .cont

/-- A response is non-terminal in the sense of the spec: it is not a
success with a truthy result reference, and its status is not
case-insensitively failed or error.  (Such a response is classified
`cont` by both loops.) -/
def nonTerminalResp (d : RespData) : Prop :=
  ¬(effStatus d = some "Success" ∧ strTruthy d.file_id = true) ∧
  ¬(strTruthy (effStatus d) = true ∧
    (pyLower ((effStatus d).getD "") = "failed" ∨
     pyLower ((effStatus d).getD "") = "error"))

instance (d : RespData) : Decidable (nonTerminalResp d) := by
  unfold nonTerminalResp; infer_instance

/-- Outcome of a poll loop: return of a file id, job-failure error
carrying the last payload, poll-timeout error, or an uncaught
transport-level exception propagating out of the loop. -/
inductive PollOutcome
  | success (fid : String)
  | jobFailed (d : RespData)
  | timeout
  | transportErr
deriving DecidableEq

/-- The poll loop of `poll_minimax_task` (src/audio/ai_minimax_tts_cli.py
lines 124-140).  `a` is the number of queries already issued and the fuel
is `max_attempts - a` (the loop guard `while attempts < max_attempts` is
tested before each query).  The second component of the result counts the
status queries issued. -/
def pollGo (q : Nat → PollEvent) : Nat → Nat → PollOutcome × Nat
  | a, 0 => (.timeout, a)
  | a, rem + 1 =>
    match q a with
    | .transport => (.transportErr, a + 1)
    | .resp d =>
      match loop1Step d with
      | .success fid => (.success fid, a + 1)
      | .failed => (.jobFailed d, a + 1)
      | .cont => pollGo q (a + 1) rem

/-- `poll_minimax_task(task_id, max_attempts)` as a function of the
status-request oracle: outcome together with the number of status
queries issued. -/
def poll_minimax_task (q : Nat → PollEvent) (max_attempts : Nat) :
    PollOutcome × Nat :=
  pollGo q 0 max_attempts

/-- The `while True` poll loop of src/audio/minimax_poll.py
(lines 106-156).  `a` is the number of queries already issued; the fuel
is `max_attempts - a`.  The bound `if attempt >= max_attempts: exit(1)`
is tested after each query, which is why a query is issued even at fuel
zero and the loop stops when the fuel after a query has run out. -/
def pollGo2 (q : Nat → PollEvent) : Nat → Nat → PollOutcome × Nat
  | a, 0 =>
    match q a with
    | .transport => (.transportErr, a + 1)
    | .resp d =>
      match loop2Step d with
      | .success fid => (.success fid, a + 1)
      | .failed => (.jobFailed d, a + 1)
      | .cont => (.timeout, a + 1)
  | a, rem + 1 =>
    match q a with
    | .transport => (.transportErr, a + 1)
    | .resp d =>
      match loop2Step d with
      | .success fid => (.success fid, a + 1)
      | .failed => (.jobFailed d, a + 1)
      | .cont => if rem = 0 then (.timeout, a + 1) else pollGo2 q (a + 1) rem

/-- The src/audio/minimax_poll.py poll loop as a function of the
status-request oracle (the script uses `max_attempts = 240`). -/
def minimaxPoll (q : Nat → PollEvent) (max_attempts : Nat) :
    PollOutcome × Nat :=
  pollGo2 q 0 max_attempts

/-- The parsed body of a submit response as read by `create_minimax_tts`:
the fields `task_id` and `taskId`. -/
structure SubmitData where
  task_id : PyVal
  taskId : PyVal
deriving DecidableEq

/-- A submit response: HTTP status code, raw body text, and the parsed
JSON body (`none` when `resp.json()` raises). -/
structure SubmitResp where
  code : Nat
  body : String
  parsed : Option SubmitData
deriving DecidableEq

/-- The failure modes of `create_minimax_tts`:
`httpError` is the RuntimeError raised when `raise_for_status` throws
(it carries the status code inside the HTTPError text and `resp.text`);
`malformedBody` is the JSON decode error of `resp.json()` propagating
(line 111 is outside any try block); `noTaskId` is the RuntimeError for
a missing or falsy task id; `badTaskId` is the ValueError or TypeError
raised by `int(task_id)`. -/
inductive SubmitErr
  | httpError (code : Nat) (body : String)
  | malformedBody (body : String)
  | noTaskId
  | badTaskId (v : PyVal)
deriving DecidableEq

/-- `create_minimax_tts` (src/audio/ai_minimax_tts_cli.py lines 105-116)
from the point the submit response is available: `raise_for_status`
(which raises exactly for status codes 400-599), then
`task_id = data.get("task_id") or data.get("taskId")`, then
`if not task_id: raise`, then `return int(task_id)`. -/
def create_minimax_tts (r : SubmitResp) : Except SubmitErr Int :=
  if 400 ≤ r.code ∧ r.code < 600 then .error (.httpError r.code r.body)
  else
    match r.parsed with
    | none => .error (.malformedBody r.body)
    | some d =>
      if (PyVal.pyOr d.task_id d.taskId).truthy then
        match pyIntOf (PyVal.pyOr d.task_id d.taskId) with
        | some n => .ok n
        | none => .error (.badTaskId (PyVal.pyOr d.task_id d.taskId))
      else .error .noTaskId

/-- The `base_resp` object of a Minimax response as read by
src/audio/minimax_poll.py lines 87-91. -/
structure BaseResp where
  status_code : Option Int
  status_msg : Option String
deriving DecidableEq

/-- The parsed body of a submit response as read by the
src/audio/minimax_poll.py submit step. -/
structure SubmitData2 where
  base_resp : Option BaseResp
  task_id : PyVal
deriving DecidableEq

/-- A submit response for the src/audio/minimax_poll.py submit step. -/
structure SubmitResp2 where
  code : Nat
  body : String
  parsed : Option SubmitData2
deriving DecidableEq

/-- Failure modes of the src/audio/minimax_poll.py submit step; each
corresponds to an `exit(1)` after printing diagnostics: `httpRejected`
prints the HTTP status code, the request payload and the response body
or JSON; `apiError` prints `base_resp.status_msg`; `noTaskId` prints
that no task_id was present. -/
inductive SubmitErr2
  | httpRejected (code : Nat) (body : String)
  | apiError (msg : Option String)
  | noTaskId
deriving DecidableEq

/-- The submit step of src/audio/minimax_poll.py (lines 63-97): the
HTTP status is checked first (`if response.status_code >= 400`, with no
upper bound), a JSON parse failure is absorbed (`response_data = {}`),
then `base_resp.status_code != 0` is rejected, then a falsy `task_id`
is rejected; otherwise the task id is used exactly as returned. -/
def minimaxSubmit (r : SubmitResp2) : Except SubmitErr2 PyVal :=
  if 400 ≤ r.code then .error (.httpRejected r.code r.body)
  else
    match r.parsed with
    | none => .error .noTaskId
    | some d =>
      match d.base_resp with
      | some br =>
        if br.status_code = some 0 then
          if d.task_id.truthy then .ok d.task_id else .error .noTaskId
        else .error (.apiError br.status_msg)
      | none =>
        if d.task_id.truthy then .ok d.task_id else .error .noTaskId

/-- The event produced by the artifact download request: a transport
failure of the request call, or a received response with status code and
body bytes. -/
inductive DlEvent
  | transport
  | resp (code : Nat) (content : String)
deriving DecidableEq

/-- Failure modes of an artifact download. -/
inductive DlErr
  | transport
  | httpStatus (code : Nat) (body : String)
deriving DecidableEq

/-- `download_file` (src/audio/ai_minimax_tts_cli.py lines 143-160) up to
the write of `resp.content`: the request (transport failures propagate),
then `resp.raise_for_status()`, then the body bytes are saved. -/
def download_file : DlEvent → Except DlErr String
  | .transport => .error .transport
  | .resp code content =>
    if 400 ≤ code ∧ code < 600 then .error (.httpStatus code content)
    else .ok content

/-- The download step of src/audio/minimax_poll.py (lines 158-176): the
request (transport failures propagate) and then the body bytes are
written directly — there is no status check of any kind. -/
def minimaxDownload : DlEvent → Except DlErr String
  | .transport => .error .transport
  | .resp _code content => .ok content

/-- Failure modes of the submit-then-poll flow of the CLI main. -/
inductive FlowErr
  | submitErr (e : SubmitErr)
  | jobFailed (d : RespData)
  | pollTimeout
  | transportErr
deriving DecidableEq

/-- The submit-then-poll portion of `main` in
src/audio/ai_minimax_tts_cli.py (lines 188-191): `poll_minimax_task` is
reached only when `create_minimax_tts` returned a task id.  The second
component counts the status queries issued. -/
def ttsFlow (r : SubmitResp) (q : Nat → PollEvent) (max_attempts : Nat) :
    Except FlowErr String × Nat :=
  match create_minimax_tts r with
  | .error e => (.error (.submitErr e), 0)
  | .ok _tid =>
    match poll_minimax_task q max_attempts with
    | (.success fid, n) => (.ok fid, n)
    | (.jobFailed d, n) => (.error (.jobFailed d), n)
    | (.timeout, n) => (.error .pollTimeout, n)
    | (.transportErr, n) => (.error .transportErr, n)

/-- Failure modes of a whole run of src/audio/minimax_poll.py:
`nameError` models a Python NameError raised when a name that was never
bound on the taken path is read. -/
inductive RunErr
  | nameError (name : String)
  | jobFailedExit
  | timeoutExit
  | transportCrash
deriving DecidableEq

/-- The resume path of src/audio/minimax_poll.py: `--task-id` was
supplied (lines 24-27), so the whole submission block (lines 28-97) is
skipped and the names `script_dir` (bound at line 32) and
`post_response_json` (bound at line 65) are never assigned; they are
modelled as `none` here.  The poll loop runs with `max_attempts = 240`;
on a failed status the branch at line 134 reads `post_response_json`;
on success the download request is issued (line 167) and then line 169
reads `script_dir` to build the output directory before writing the
file. -/
def minimaxResume (q : Nat → PollEvent) (dl : DlEvent) :
    Except RunErr String :=
  let script_dir : Option String := none
  let post_response_json : Option String := none
  match minimaxPoll q 240 with
  | (.transportErr, _) => .error .transportCrash
  | (.timeout, _) => .error .timeoutExit
  | (.jobFailed _, _) =>
    match post_response_json with
    | none => .error (.nameError "post_response_json")
    | some _ => .error .jobFailedExit
  | (.success _fid, _) =>
    match minimaxDownload dl with
    | .error _ => .error .transportCrash
    | .ok bytes =>
      match script_dir with
      | none => .error (.nameError "script_dir")
      | some _ => .ok bytes

/-- The value returned by a successful `client.predict` call in
`transcribe_segment`: a list or tuple, a dict (fields `text`, `result`,
and the `str(result)` rendering), or any other value rendered by `str`. -/
inductive PredVal
  | list (xs : List String)
  | dict (text : Option String) (res : Option String) (repr : String)
  | other (repr : String)
deriving DecidableEq

/-- The text extraction of `transcribe_segment` lines 78-84, performed
inside the try block: `result[0]` for a list or tuple (an IndexError on
an empty one is caught and retried like any other failure),
`result.get("text") or result.get("result") or str(result)` for a dict,
`str(result)` otherwise. -/
def extractText : PredVal → Except String String
  | .list [] => .error "list index out of range"
  | .list (x :: _) => .ok x
  | .dict t r rep =>
    .ok (match pyStrOr t r with
         | some s => if s = "" then rep else s
         | none => rep)
  | .other rep => .ok rep

/-- Result of the client-construction retry loop of `transcribe_segment`
(lines 62-72): the client was built (`break`), or the function returned
the empty-text error pair at the last attempt, or the for loop ran out
without either (possible only if `max_retries` were zero).  Each result
carries the backoff waits that were slept. -/
inductive InitRes
  | built (waits : List Nat)
  | failedOut (msg : String) (waits : List Nat)
  | fellThrough
deriving DecidableEq

/-- The client-construction retry loop, iterating over the attempt
numbers `range(1, max_retries + 1)`: on an exception at the final
attempt return the error pair, otherwise sleep `min(10, 2 ** attempt)`
and retry. -/
def initGo (init : Nat → Except String Unit) (maxRetries : Nat) :
    List Nat → InitRes
  | [] => .fellThrough
  | a :: rest =>
    match init a with
    | .ok _ => .built []
    | .error msg =>
      if a = maxRetries then .failedOut msg []
      else
        match initGo init maxRetries rest with
        | .built ws => .built (min 10 (2 ^ a) :: ws)
        | .failedOut m ws => .failedOut m (min 10 (2 ^ a) :: ws)
        | .fellThrough => .fellThrough

/-- Result of the prediction retry loop of `transcribe_segment`
(lines 73-94): text extracted, or the empty-text error pair at the last
attempt, or fell through (possible only if `max_retries` were zero). -/
inductive PredRes
  | done (text : String) (raw : PredVal) (waits : List Nat)
  | failedOut (msg : String) (waits : List Nat)
  | fellThrough
deriving DecidableEq

/-- The prediction retry loop, iterating over the attempt numbers
`range(1, max_retries + 1)`: any exception of the predict call or of the
text extraction is caught; at the final attempt the error pair is
returned, otherwise the loop sleeps `min(30, 2 ** attempt)` and
retries. -/
def predGo (pred : Nat → Except String PredVal) (maxRetries : Nat) :
    List Nat → PredRes
  | [] => .fellThrough
  | a :: rest =>
    match pred a with
    | .ok v =>
      match extractText v with
      | .ok t => .done t v []
      | .error msg =>
        if a = maxRetries then .failedOut msg []
        else
          match predGo pred maxRetries rest with
          | .done t v2 ws => .done t v2 (min 30 (2 ^ a) :: ws)
          | .failedOut m ws => .failedOut m (min 30 (2 ^ a) :: ws)
          | .fellThrough => .fellThrough
    | .error msg =>
      if a = maxRetries then .failedOut msg []
      else
        match predGo pred maxRetries rest with
        | .done t v2 ws => .done t v2 (min 30 (2 ^ a) :: ws)
        | .failedOut m ws => .failedOut m (min 30 (2 ^ a) :: ws)
        | .fellThrough => .fellThrough

/-- The `raw` component returned by `transcribe_segment`: the raw predict
result, or the dict
containing the stringified exception of the final failed attempt. -/
inductive TranscribeRaw
  | rawVal (v : PredVal)
  | errorDict (msg : String)
deriving DecidableEq

/-- Observable result of `transcribe_segment`: returned text, returned
raw value, and the backoff waits slept in the two retry loops. -/
structure TransOut where
  text : String
  raw : TranscribeRaw
  initWaits : List Nat
  predWaits : List Nat
deriving DecidableEq

/-- `transcribe_segment` (src/audiototext/qwen_audio_processor.py
lines 53-94) as a function of the two failure oracles: `init a` is the
outcome of constructing `Client(gradio_url)` at attempt `a`, `pred a`
the outcome of `client.predict` at attempt `a`.  `max_retries = 4`.
The function result is `none` exactly when Python would fall off the
end of the function returning None, which cannot happen for
`max_retries = 4`; otherwise it is the returned pair together with the
waits slept. -/
def transcribe_segment (init : Nat → Except String Unit)
    (pred : Nat → Except String PredVal) : Option TransOut :=
  match initGo init 4 (List.range' 1 4) with
  | .fellThrough => none
  | .failedOut msg ws => some ⟨"", .errorDict msg, ws, []⟩
  | .built ws =>
    match predGo pred 4 (List.range' 1 4) with
    | .fellThrough => none
    | .failedOut msg pws => some ⟨"", .errorDict msg, ws, pws⟩
    | .done t v pws => some ⟨t, .rawVal v, ws, pws⟩

/-! ### Helper lemmas about the loop-body classifications -/

theorem loop1Step_success_intro (d : RespData) (fid : String)
    (hst : effStatus d = some "Success") (hfid : d.file_id = some fid)
    (hne : fid ≠ "") : loop1Step d = .success fid := by
  unfold loop1Step
  rw [if_pos hst]
  have ht : strTruthy d.file_id = true := by
    rw [hfid]; simp [strTruthy, hne]
  rw [if_pos ht, hfid]
  rfl

theorem loop1Step_success_elim (d : RespData) (fid : String)
    (h : loop1Step d = .success fid) :
    effStatus d = some "Success" ∧ d.file_id = some fid ∧ fid ≠ "" := by
  unfold loop1Step at h
  by_cases h1 : effStatus d = some "Success"
  · rw [if_pos h1] at h
    by_cases h2 : strTruthy d.file_id = true
    · rw [if_pos h2] at h
      cases hf : d.file_id with
      | none => rw [hf] at h2; exact absurd h2 (by decide)
      | some s =>
        rw [hf] at h2 h
        simp only [strTruthy, bne_iff_ne] at h2
        simp only [Option.getD_some, StepRes.success.injEq] at h
        subst h
        exact ⟨h1, rfl, h2⟩
    · rw [if_neg h2] at h; simp at h
  · rw [if_neg h1] at h
    by_cases h3 : strTruthy (effStatus d) = true ∧
        (pyLower ((effStatus d).getD "") = "failed" ∨
         pyLower ((effStatus d).getD "") = "error")
    · rw [if_pos h3] at h; simp at h
    · rw [if_neg h3] at h; simp at h

theorem loop1Step_cont_of_ambiguous (d : RespData)
    (hst : effStatus d = some "Success") (hfid : strTruthy d.file_id = false) :
    loop1Step d = .cont := by
  unfold loop1Step
  rw [if_pos hst, if_neg (by rw [hfid]; exact Bool.false_ne_true)]

theorem loop1Step_failed_intro (d : RespData) (s : String)
    (hst : effStatus d = some s) (hne : s ≠ "")
    (hl : pyLower s = "failed" ∨ pyLower s = "error") :
    loop1Step d = .failed := by
  have hns : ¬ (effStatus d = some "Success") := by
    rw [hst]
    intro hc
    have hse : s = "Success" := by injection hc
    subst hse
    rcases hl with hl | hl
    · exact absurd hl (by decide)
    · exact absurd hl (by decide)
  unfold loop1Step
  rw [if_neg hns, if_pos]
  constructor
  · rw [hst]; simp [strTruthy, hne]
  · rw [hst]; exact hl

theorem loop2Step_success_intro (d : RespData) (fid : String)
    (hst : effStatus d = some "Success") (hfid : d.file_id = some fid)
    (hne : fid ≠ "") : loop2Step d = .success fid := by
  unfold loop2Step
  rw [if_pos hst]
  have ht : strTruthy d.file_id = true := by
    rw [hfid]; simp [strTruthy, hne]
  rw [if_pos ht, hfid]
  rfl

theorem loop2Step_success_elim (d : RespData) (fid : String)
    (h : loop2Step d = .success fid) :
    effStatus d = some "Success" ∧ d.file_id = some fid ∧ fid ≠ "" := by
  unfold loop2Step at h
  by_cases h1 : effStatus d = some "Success"
  · rw [if_pos h1] at h
    by_cases h2 : strTruthy d.file_id = true
    · rw [if_pos h2] at h
      cases hf : d.file_id with
      | none => rw [hf] at h2; exact absurd h2 (by decide)
      | some s =>
        rw [hf] at h2 h
        simp only [strTruthy, bne_iff_ne] at h2
        simp only [Option.getD_some, StepRes.success.injEq] at h
        subst h
        exact ⟨h1, rfl, h2⟩
    · rw [if_neg h2] at h; simp at h
  · rw [if_neg h1] at h
    by_cases h3 : effStatus d = some "failed" ∨ effStatus d = some "error" ∨
        effStatus d = some "Failed"
    · rw [if_pos h3] at h; simp at h
    · rw [if_neg h3] at h; simp at h

theorem loop2Step_cont_of_ambiguous (d : RespData)
    (hst : effStatus d = some "Success") (hfid : strTruthy d.file_id = false) :
    loop2Step d = .cont := by
  unfold loop2Step
  rw [if_pos hst, if_neg (by rw [hfid]; exact Bool.false_ne_true)]

theorem loop2Step_failed_intro (d : RespData) (s : String)
    (hst : effStatus d = some s)
    (hl : s = "failed" ∨ s = "error" ∨ s = "Failed") :
    loop2Step d = .failed := by
  have hns : ¬ (effStatus d = some "Success") := by
    rw [hst]
    intro hc
    have hse : s = "Success" := by injection hc
    subst hse
    rcases hl with h | h | h
    · exact absurd h (by decide)
    · exact absurd h (by decide)
    · exact absurd h (by decide)
  unfold loop2Step
  rw [if_neg hns, if_pos]
  rw [hst]
  rcases hl with h | h | h
  · exact Or.inl (by rw [h])
  · exact Or.inr (Or.inl (by rw [h]))
  · exact Or.inr (Or.inr (by rw [h]))

theorem cont_of_nonTerminal (d : RespData) (h : nonTerminalResp d) :
    loop1Step d = .cont ∧ loop2Step d = .cont := by
  obtain ⟨h1, h2⟩ := h
  by_cases hs : effStatus d = some "Success"
  · have hfid : strTruthy d.file_id = false := by
      cases hb : strTruthy d.file_id
      · rfl
      · exact absurd ⟨hs, hb⟩ h1
    exact ⟨loop1Step_cont_of_ambiguous d hs hfid,
      loop2Step_cont_of_ambiguous d hs hfid⟩
  · constructor
    · unfold loop1Step
      rw [if_neg hs, if_neg h2]
    · unfold loop2Step
      rw [if_neg hs, if_neg ?_]
      intro hc
      apply h2
      rcases hc with hc | hc | hc <;> rw [hc] <;> exact ⟨by decide, by decide⟩

/-! ### Traversal lemmas for the two poll loops -/

theorem pollGo_skip (q : Nat → PollEvent) :
    ∀ (m a rem : Nat),
      (∀ i, i < m → ∃ d, q (a + i) = PollEvent.resp d ∧ loop1Step d = StepRes.cont) →
      pollGo q a (m + rem) = pollGo q (a + m) rem := by
  intro m
  induction m with
  | zero => intro a rem _h; simp
  | succ k ih =>
    intro a rem h
    obtain ⟨d, hqd, hcont⟩ := h 0 (Nat.succ_pos k)
    have hq : q a = PollEvent.resp d := by simpa using hqd
    have hstep : pollGo q a (k + 1 + rem) = pollGo q (a + 1) (k + rem) := by
      rw [show k + 1 + rem = (k + rem) + 1 by omega]
      simp [pollGo, hq, hcont]
    rw [hstep]
    have h2 : ∀ i, i < k →
        ∃ d2, q (a + 1 + i) = PollEvent.resp d2 ∧ loop1Step d2 = StepRes.cont := by
      intro i hi
      obtain ⟨d2, hq2, hc2⟩ := h (i + 1) (by omega)
      exact ⟨d2, by rwa [show a + 1 + i = a + (i + 1) by omega], hc2⟩
    rw [ih (a + 1) rem h2, show a + 1 + k = a + (k + 1) by omega]

theorem pollGo2_skip (q : Nat → PollEvent) :
    ∀ (m a rem : Nat),
      (∀ i, i < m → ∃ d, q (a + i) = PollEvent.resp d ∧ loop2Step d = StepRes.cont) →
      pollGo2 q a (m + (rem + 1)) = pollGo2 q (a + m) (rem + 1) := by
  intro m
  induction m with
  | zero => intro a rem _h; simp
  | succ k ih =>
    intro a rem h
    obtain ⟨d, hqd, hcont⟩ := h 0 (Nat.succ_pos k)
    have hq : q a = PollEvent.resp d := by simpa using hqd
    have hstep : pollGo2 q a ((k + rem + 1) + 1) = pollGo2 q (a + 1) (k + rem + 1) := by
      simp only [pollGo2, hq, hcont]
      rw [if_neg (by omega)]
    rw [show k + 1 + (rem + 1) = (k + rem + 1) + 1 by omega, hstep,
      show k + rem + 1 = k + (rem + 1) by omega]
    have h2 : ∀ i, i < k →
        ∃ d2, q (a + 1 + i) = PollEvent.resp d2 ∧ loop2Step d2 = StepRes.cont := by
      intro i hi
      obtain ⟨d2, hq2, hc2⟩ := h (i + 1) (by omega)
      exact ⟨d2, by rwa [show a + 1 + i = a + (i + 1) by omega], hc2⟩
    rw [ih (a + 1) rem h2, show a + 1 + k = a + (k + 1) by omega]

theorem pollGo2_last_cont (q : Nat → PollEvent) (a : Nat) (d : RespData)
    (hq : q a = PollEvent.resp d) (hc : loop2Step d = StepRes.cont) :
    pollGo2 q a 1 = (.timeout, a + 1) := by
  simp [pollGo2, hq, hc]

theorem pollGo2_success_head (q : Nat → PollEvent) (a : Nat) (d : RespData)
    (fid : String) (hq : q a = PollEvent.resp d)
    (hs : loop2Step d = StepRes.success fid) :
    ∀ rem, pollGo2 q a rem = (.success fid, a + 1) := by
  intro rem
  cases rem with
  | zero => simp [pollGo2, hq, hs]
  | succ r => simp [pollGo2, hq, hs]

theorem pollGo2_failed_head (q : Nat → PollEvent) (a : Nat) (d : RespData)
    (hq : q a = PollEvent.resp d) (hs : loop2Step d = StepRes.failed) :
    ∀ rem, pollGo2 q a rem = (.jobFailed d, a + 1) := by
  intro rem
  cases rem with
  | zero => simp [pollGo2, hq, hs]
  | succ r => simp [pollGo2, hq, hs]

theorem pollGo2_transport_head (q : Nat → PollEvent) (a : Nat)
    (hq : q a = PollEvent.transport) :
    ∀ rem, pollGo2 q a rem = (.transportErr, a + 1) := by
  intro rem
  cases rem with
  | zero => simp [pollGo2, hq]
  | succ r => simp [pollGo2, hq]

theorem pollGo_success_sound (q : Nat → PollEvent) :
    ∀ (rem a : Nat) (fid : String) (k : Nat),
      pollGo q a rem = (.success fid, k) →
      a < k ∧ ∃ d, q (k - 1) = PollEvent.resp d ∧ loop1Step d = .success fid := by
  intro rem
  induction rem with
  | zero => intro a fid k h; simp [pollGo] at h
  | succ r ih =>
    intro a fid k h
    cases hq : q a with
    | transport => simp [pollGo, hq] at h
    | resp d =>
      cases hs : loop1Step d with
      | success fid2 =>
        simp [pollGo, hq, hs] at h
        obtain ⟨hfid, hk⟩ := h
        subst hfid
        exact ⟨by omega, d, by rw [← hk]; simpa using hq, hs⟩
      | failed => simp [pollGo, hq, hs] at h
      | cont =>
        have h2 : pollGo q (a + 1) r = (.success fid, k) := by
          simpa [pollGo, hq, hs] using h
        obtain ⟨hlt, hd⟩ := ih (a + 1) fid k h2
        exact ⟨by omega, hd⟩

theorem pollGo2_success_sound (q : Nat → PollEvent) :
    ∀ (rem a : Nat) (fid : String) (k : Nat),
      pollGo2 q a rem = (.success fid, k) →
      a < k ∧ ∃ d, q (k - 1) = PollEvent.resp d ∧ loop2Step d = .success fid := by
  intro rem
  induction rem with
  | zero =>
    intro a fid k h
    cases hq : q a with
    | transport => simp [pollGo2, hq] at h
    | resp d =>
      cases hs : loop2Step d with
      | success fid2 =>
        simp [pollGo2, hq, hs] at h
        obtain ⟨hfid, hk⟩ := h
        subst hfid
        exact ⟨by omega, d, by rw [← hk]; simpa using hq, hs⟩
      | failed => simp [pollGo2, hq, hs] at h
      | cont => simp [pollGo2, hq, hs] at h
  | succ r ih =>
    intro a fid k h
    cases hq : q a with
    | transport => simp [pollGo2, hq] at h
    | resp d =>
      cases hs : loop2Step d with
      | success fid2 =>
        simp [pollGo2, hq, hs] at h
        obtain ⟨hfid, hk⟩ := h
        subst hfid
        exact ⟨by omega, d, by rw [← hk]; simpa using hq, hs⟩
      | failed => simp [pollGo2, hq, hs] at h
      | cont =>
        by_cases hr : r = 0
        · subst hr; simp [pollGo2, hq, hs] at h
        · have hstep : pollGo2 q a (r + 1) = pollGo2 q (a + 1) r := by
            simp only [pollGo2, hq, hs]
            rw [if_neg hr]
          rw [hstep] at h
          obtain ⟨hlt, hd⟩ := ih (a + 1) fid k h
          exact ⟨by omega, hd⟩

/-! ### Helper lemmas for transcribe_segment -/

theorem initGo_ne_fellThrough (init : Nat → Except String Unit)
    (maxRetries : Nat) :
    ∀ l : List Nat, maxRetries ∈ l →
      initGo init maxRetries l ≠ .fellThrough := by
  intro l
  induction l with
  | nil => intro h; simp at h
  | cons a rest ih =>
    intro hmem
    cases hi : init a with
    | ok u => simp [initGo, hi]
    | error msg =>
      by_cases ha : a = maxRetries
      · subst ha; simp [initGo, hi]
      · have hmem2 : maxRetries ∈ rest := by
          rcases List.mem_cons.mp hmem with h | h
          · exact absurd h.symm ha
          · exact h
        have hne := ih hmem2
        simp only [initGo, hi]
        rw [if_neg ha]
        cases hrec : initGo init maxRetries rest with
        | built ws => simp
        | failedOut m ws => simp
        | fellThrough => exact absurd hrec hne

theorem predGo_ne_fellThrough (pred : Nat → Except String PredVal)
    (maxRetries : Nat) :
    ∀ l : List Nat, maxRetries ∈ l →
      predGo pred maxRetries l ≠ .fellThrough := by
  intro l
  induction l with
  | nil => intro h; simp at h
  | cons a rest ih =>
    intro hmem
    have hmem2 : a ≠ maxRetries → maxRetries ∈ rest := by
      intro ha
      rcases List.mem_cons.mp hmem with h | h
      · exact absurd h.symm ha
      · exact h
    cases hp : pred a with
    | ok v =>
      cases he : extractText v with
      | ok t => simp [predGo, hp, he]
      | error msg =>
        by_cases ha : a = maxRetries
        · subst ha; simp [predGo, hp, he]
        · have hne := ih (hmem2 ha)
          simp only [predGo, hp, he]
          rw [if_neg ha]
          cases hrec : predGo pred maxRetries rest with
          | done t v2 ws => simp
          | failedOut m ws => simp
          | fellThrough => exact absurd hrec hne
    | error msg =>
      by_cases ha : a = maxRetries
      · subst ha; simp [predGo, hp]
      · have hne := ih (hmem2 ha)
        simp only [predGo, hp]
        rw [if_neg ha]
        cases hrec : predGo pred maxRetries rest with
        | done t v2 ws => simp
        | failedOut m ws => simp
        | fellThrough => exact absurd hrec hne

/-! ### Claims -/

/-- Claim C1: for every poll policy with max_attempts = N and every
status-response sequence that never reaches a terminal state (never a
success with a truthy result reference and never a case-insensitively
failed/error status), the poll loop of ai_minimax_tts_cli.py issues
exactly N status queries and ends in the poll-timeout error, and so does
the poll loop of minimax_poll.py; neither ends in success or in a
job-failure error. -/
theorem c1_nonterminal_poll_exhausts_bound (q : Nat → PollEvent) (N : Nat)
    (hN : 1 ≤ N)
    (h : ∀ i, i < N → ∃ d, q i = PollEvent.resp d ∧ nonTerminalResp d) :
    poll_minimax_task q N = (PollOutcome.timeout, N) ∧
    minimaxPoll q N = (PollOutcome.timeout, N) := by
  have hc1 : ∀ i, i < N →
      ∃ d, q i = PollEvent.resp d ∧ loop1Step d = StepRes.cont := by
    intro i hi
    obtain ⟨d, hq, hnt⟩ := h i hi
    exact ⟨d, hq, (cont_of_nonTerminal d hnt).1⟩
  have hc2 : ∀ i, i < N →
      ∃ d, q i = PollEvent.resp d ∧ loop2Step d = StepRes.cont := by
    intro i hi
    obtain ⟨d, hq, hnt⟩ := h i hi
    exact ⟨d, hq, (cont_of_nonTerminal d hnt).2⟩
  constructor
  · unfold poll_minimax_task
    have hsk := pollGo_skip q N 0 0 (by simpa using hc1)
    simpa [pollGo] using hsk
  · unfold minimaxPoll
    obtain ⟨r, hr⟩ : ∃ r, N = r + 1 := ⟨N - 1, by omega⟩
    subst hr
    have hsk := pollGo2_skip q r 0 0 (by
      intro i hi
      exact hc2 (0 + i) (by omega))
    obtain ⟨d, hq, hcont⟩ := hc2 r (by omega)
    have hlast := pollGo2_last_cont q r d (by simpa using hq) hcont
    simp only [Nat.zero_add] at hsk
    rw [hsk]
    simpa using hlast

/-- Witness for C1 at a concrete non-terminal sequence (always
"Processing") and N = 3. -/
theorem c1_witness :
    poll_minimax_task (fun _ => PollEvent.resp ⟨some "Processing", none, none⟩) 3 =
      (PollOutcome.timeout, 3) ∧
    minimaxPoll (fun _ => PollEvent.resp ⟨some "Processing", none, none⟩) 3 =
      (PollOutcome.timeout, 3) :=
  c1_nonterminal_poll_exhausts_bound
    (fun _ => PollEvent.resp ⟨some "Processing", none, none⟩) 3 (by decide)
    (fun _i _hi => ⟨⟨some "Processing", none, none⟩, rfl, by decide⟩)

/-- Claim C9: a success-status response whose file_id is missing, empty,
or otherwise falsy is treated exactly like a missing reference: the
attempt is consumed and polling continues, so a sequence consisting only
of such responses ends in the poll-timeout error after all N attempts
(in both poll loops), never in a success carrying an empty reference. -/
theorem c9_falsy_reference_times_out (q : Nat → PollEvent) (N : Nat)
    (h : ∀ i, i < N → ∃ d, q i = PollEvent.resp d ∧
      effStatus d = some "Success" ∧ strTruthy d.file_id = false) :
    poll_minimax_task q N = (PollOutcome.timeout, N) ∧
    (1 ≤ N → minimaxPoll q N = (PollOutcome.timeout, N)) := by
  have hc1 : ∀ i, i < N →
      ∃ d, q i = PollEvent.resp d ∧ loop1Step d = StepRes.cont := by
    intro i hi
    obtain ⟨d, hq, hst, hfid⟩ := h i hi
    exact ⟨d, hq, loop1Step_cont_of_ambiguous d hst hfid⟩
  have hc2 : ∀ i, i < N →
      ∃ d, q i = PollEvent.resp d ∧ loop2Step d = StepRes.cont := by
    intro i hi
    obtain ⟨d, hq, hst, hfid⟩ := h i hi
    exact ⟨d, hq, loop2Step_cont_of_ambiguous d hst hfid⟩
  constructor
  · unfold poll_minimax_task
    have hsk := pollGo_skip q N 0 0 (by simpa using hc1)
    simpa [pollGo] using hsk
  · intro hN
    unfold minimaxPoll
    obtain ⟨r, hr⟩ : ∃ r, N = r + 1 := ⟨N - 1, by omega⟩
    subst hr
    have hsk := pollGo2_skip q r 0 0 (by
      intro i hi
      exact hc2 (0 + i) (by omega))
    obtain ⟨d, hq, hcont⟩ := hc2 r (by omega)
    have hlast := pollGo2_last_cont q r d (by simpa using hq) hcont
    simp only [Nat.zero_add] at hsk
    rw [hsk]
    simpa using hlast

/-- Witness for C9: every response is Success with an empty-string
file_id; with N = 4 both loops time out after 4 queries. -/
theorem c9_witness :
    poll_minimax_task (fun _ => PollEvent.resp ⟨some "Success", none, some ""⟩) 4 =
      (PollOutcome.timeout, 4) ∧
    (1 ≤ 4 → minimaxPoll (fun _ => PollEvent.resp ⟨some "Success", none, some ""⟩) 4 =
      (PollOutcome.timeout, 4)) :=
  c9_falsy_reference_times_out
    (fun _ => PollEvent.resp ⟨some "Success", none, some ""⟩) 4
    (fun _i _hi => ⟨⟨some "Success", none, some ""⟩, rfl, rfl, rfl⟩)

/-- Claim C3: both poll loops return success only from a response whose
status is exactly "Success" and whose file_id is truthy (first two
conjuncts: whenever a loop returns success, the response consumed by the
final query carried status Success and that non-empty file_id); and a
sequence of ambiguous success-without-reference responses followed by a
success-with-reference response at query m+1 keeps polling through the
ambiguous responses and returns that reference with exactly m+1 queries
(third conjunct). -/
theorem c3_success_requires_reference :
    (∀ (q : Nat → PollEvent) (N : Nat) (fid : String) (k : Nat),
      poll_minimax_task q N = (PollOutcome.success fid, k) →
      1 ≤ k ∧ ∃ d, q (k - 1) = PollEvent.resp d ∧
        effStatus d = some "Success" ∧ d.file_id = some fid ∧ fid ≠ "") ∧
    (∀ (q : Nat → PollEvent) (N : Nat) (fid : String) (k : Nat),
      minimaxPoll q N = (PollOutcome.success fid, k) →
      1 ≤ k ∧ ∃ d, q (k - 1) = PollEvent.resp d ∧
        effStatus d = some "Success" ∧ d.file_id = some fid ∧ fid ≠ "") ∧
    (∀ (q : Nat → PollEvent) (N m : Nat) (dm : RespData) (fid : String),
      (∀ i, i < m → ∃ d, q i = PollEvent.resp d ∧
        effStatus d = some "Success" ∧ strTruthy d.file_id = false) →
      q m = PollEvent.resp dm → effStatus dm = some "Success" →
      dm.file_id = some fid → fid ≠ "" → m < N →
      poll_minimax_task q N = (PollOutcome.success fid, m + 1) ∧
      minimaxPoll q N = (PollOutcome.success fid, m + 1)) := by
  refine ⟨?_, ?_, ?_⟩
  · intro q N fid k h
    obtain ⟨hlt, d, hq, hs⟩ := pollGo_success_sound q N 0 fid k h
    obtain ⟨h1, h2, h3⟩ := loop1Step_success_elim d fid hs
    exact ⟨by omega, d, hq, h1, h2, h3⟩
  · intro q N fid k h
    obtain ⟨hlt, d, hq, hs⟩ := pollGo2_success_sound q N 0 fid k h
    obtain ⟨h1, h2, h3⟩ := loop2Step_success_elim d fid hs
    exact ⟨by omega, d, hq, h1, h2, h3⟩
  · intro q N m dm fid h hqm hst hfid hne hmN
    have hc1 : ∀ i, i < m →
        ∃ d, q (0 + i) = PollEvent.resp d ∧ loop1Step d = StepRes.cont := by
      intro i hi
      obtain ⟨d, hq, hs, hf⟩ := h i hi
      exact ⟨d, by simpa using hq, loop1Step_cont_of_ambiguous d hs hf⟩
    have hc2 : ∀ i, i < m →
        ∃ d, q (0 + i) = PollEvent.resp d ∧ loop2Step d = StepRes.cont := by
      intro i hi
      obtain ⟨d, hq, hs, hf⟩ := h i hi
      exact ⟨d, by simpa using hq, loop2Step_cont_of_ambiguous d hs hf⟩
    obtain ⟨r, hr⟩ : ∃ r, N - m = r + 1 := ⟨N - m - 1, by omega⟩
    constructor
    · unfold poll_minimax_task
      have hsk := pollGo_skip q m 0 (r + 1) hc1
      rw [show N = m + (r + 1) by omega, hsk]
      simp only [Nat.zero_add]
      simp [pollGo, hqm, loop1Step_success_intro dm fid hst hfid hne]
    · unfold minimaxPoll
      have hsk := pollGo2_skip q m 0 r hc2
      rw [show N = m + (r + 1) by omega, hsk]
      simp only [Nat.zero_add]
      rw [pollGo2_success_head q m dm fid hqm
        (loop2Step_success_intro dm fid hst hfid hne) (r + 1)]

/-- Witness for C3: two ambiguous Success-without-file_id responses and
then Success with file_id "f9"; both loops return "f9" after exactly 3
queries (third conjunct of the theorem, applied at N = 240). -/
theorem c3_witness :
    poll_minimax_task
      (fun i => if i < 2 then PollEvent.resp ⟨some "Success", none, none⟩
                else PollEvent.resp ⟨some "Success", none, some "f9"⟩) 240 =
      (PollOutcome.success "f9", 3) ∧
    minimaxPoll
      (fun i => if i < 2 then PollEvent.resp ⟨some "Success", none, none⟩
                else PollEvent.resp ⟨some "Success", none, some "f9"⟩) 240 =
      (PollOutcome.success "f9", 3) :=
  c3_success_requires_reference.2.2
    (fun i => if i < 2 then PollEvent.resp ⟨some "Success", none, none⟩
              else PollEvent.resp ⟨some "Success", none, some "f9"⟩)
    240 2 ⟨some "Success", none, some "f9"⟩ "f9"
    (by
      intro i hi
      refine ⟨⟨some "Success", none, none⟩, ?_, rfl, rfl⟩
      simp [hi])
    (by norm_num) rfl rfl (by decide) (by norm_num)

/-- Counterexample to claim C4 as stated: in the minimax_poll.py loop the
failed-status comparison is the literal set failed/error/Failed, so the
case-insensitively-failed status "Error" is not terminal there.  With
max_attempts = 240, a first response with status "Error" followed by
success responses makes the loop issue a second query and return
success — it does not terminate immediately with the job-failed error
and it does issue status queries after observing "Error". -/
theorem c4_counterexample_error_status_not_terminal :
    minimaxPoll
      (fun i => if i = 0 then PollEvent.resp ⟨some "Error", none, none⟩
                else PollEvent.resp ⟨some "Success", none, some "f9"⟩) 240 =
      (PollOutcome.success "f9", 2) := by decide

/-- Claim C4 amended: in poll_minimax_task (ai_minimax_tts_cli.py) every
truthy status that equals failed or error case-insensitively is terminal:
observed at query k+1 (after k non-terminal responses), the loop raises
the job-failed error carrying that payload and issues no further queries.
In the minimax_poll.py loop only the literal statuses failed, error and
Failed are terminal in that way; any other status string — including
other casings such as "Error" or "FAILED" — is treated as still running
and polling continues. -/
theorem c4_amended_failed_status_handling :
    (∀ (q : Nat → PollEvent) (N k : Nat) (d : RespData) (s : String),
      (∀ i, i < k → ∃ d2, q i = PollEvent.resp d2 ∧ loop1Step d2 = StepRes.cont) →
      k < N → q k = PollEvent.resp d → effStatus d = some s → s ≠ "" →
      (pyLower s = "failed" ∨ pyLower s = "error") →
      poll_minimax_task q N = (PollOutcome.jobFailed d, k + 1)) ∧
    (∀ (q : Nat → PollEvent) (N k : Nat) (d : RespData) (s : String),
      (∀ i, i < k → ∃ d2, q i = PollEvent.resp d2 ∧ loop2Step d2 = StepRes.cont) →
      k < N → q k = PollEvent.resp d → effStatus d = some s →
      (s = "failed" ∨ s = "error" ∨ s = "Failed") →
      minimaxPoll q N = (PollOutcome.jobFailed d, k + 1)) ∧
    (∀ (d : RespData) (s : String), effStatus d = some s →
      s ≠ "failed" → s ≠ "error" → s ≠ "Failed" → s ≠ "Success" →
      loop2Step d = StepRes.cont) := by
  refine ⟨?_, ?_, ?_⟩
  · intro q N k d s h hkN hqk hst hne hl
    obtain ⟨r, hr⟩ : ∃ r, N - k = r + 1 := ⟨N - k - 1, by omega⟩
    unfold poll_minimax_task
    have hsk := pollGo_skip q k 0 (r + 1) (by simpa using h)
    rw [show N = k + (r + 1) by omega, hsk]
    simp only [Nat.zero_add]
    have hlow : pyLower s = "failed" ∨ pyLower s = "error" := hl
    have hfs : loop1Step d = StepRes.failed :=
      loop1Step_failed_intro d s hst hne hlow
    simp [pollGo, hqk, hfs]
  · intro q N k d s h hkN hqk hst hl
    obtain ⟨r, hr⟩ : ∃ r, N - k = r + 1 := ⟨N - k - 1, by omega⟩
    unfold minimaxPoll
    have hsk := pollGo2_skip q k 0 r (by simpa using h)
    rw [show N = k + (r + 1) by omega, hsk]
    simp only [Nat.zero_add]
    exact pollGo2_failed_head q k d hqk (loop2Step_failed_intro d s hst hl) (r + 1)
  · intro d s hst h1 h2 h3 h4
    unfold loop2Step
    rw [if_neg (by rw [hst]; intro hc; exact h4 (by injection hc)),
      if_neg ?_]
    rw [hst]
    intro hc
    rcases hc with hc | hc | hc
    · exact h1 (by injection hc)
    · exact h2 (by injection hc)
    · exact h3 (by injection hc)

/-- Witness for C4 amended: a first response with status "FAILED" makes
poll_minimax_task raise the job-failed error after exactly one query;
a first response with literal status "failed" does the same in the
minimax_poll.py loop; and the status "Error" is classified non-terminal
by the minimax_poll.py loop body. -/
theorem c4_witness :
    poll_minimax_task
      (fun _ => PollEvent.resp ⟨some "FAILED", none, none⟩) 240 =
      (PollOutcome.jobFailed ⟨some "FAILED", none, none⟩, 1) ∧
    minimaxPoll
      (fun _ => PollEvent.resp ⟨some "failed", none, none⟩) 240 =
      (PollOutcome.jobFailed ⟨some "failed", none, none⟩, 1) ∧
    loop2Step ⟨some "Error", none, none⟩ = StepRes.cont :=
  ⟨c4_amended_failed_status_handling.1
      (fun _ => PollEvent.resp ⟨some "FAILED", none, none⟩) 240 0
      ⟨some "FAILED", none, none⟩ "FAILED"
      (fun i hi => absurd hi (by omega)) (by norm_num) rfl rfl
      (by decide) (by decide),
    c4_amended_failed_status_handling.2.1
      (fun _ => PollEvent.resp ⟨some "failed", none, none⟩) 240 0
      ⟨some "failed", none, none⟩ "failed"
      (fun i hi => absurd hi (by omega)) (by norm_num) rfl rfl
      (Or.inl rfl),
    c4_amended_failed_status_handling.2.2
      ⟨some "Error", none, none⟩ "Error" rfl
      (by decide) (by decide) (by decide) (by decide)⟩

/-- Counterexample to claim C2 as stated: in poll_minimax_task the
status request itself (`requests.get`, line 127) is outside every try
block, so a transport-level exception on the first poll attempt
propagates to the caller immediately: with max_attempts = 5 and every
attempt failing at transport level, the loop ends with the transport
error after exactly 1 attempt — not with the poll-timeout error after 5
attempts. -/
theorem c2_counterexample_transport_propagates :
    poll_minimax_task (fun _ => PollEvent.transport) 5 =
      (PollOutcome.transportErr, 1) := by decide

/-- Claim C2 amended: what is absorbed locally during polling is a
failure to parse the response body (`resp.json()` is inside try/except
and yields an empty payload, so polling continues up to the attempt
bound, first conjunct); a transport-level failure of the status request
itself is not caught and propagates to the caller at the attempt where
it occurs, in both poll loops (second and third conjuncts). -/
theorem c2_amended_parse_absorbed_transport_propagates :
    (∀ (q : Nat → PollEvent) (N : Nat),
      (∀ i, i < N → q i = PollEvent.resp ⟨none, none, none⟩) →
      poll_minimax_task q N = (PollOutcome.timeout, N)) ∧
    (∀ (q : Nat → PollEvent) (N k : Nat),
      (∀ i, i < k → ∃ d, q i = PollEvent.resp d ∧ loop1Step d = StepRes.cont) →
      k < N → q k = PollEvent.transport →
      poll_minimax_task q N = (PollOutcome.transportErr, k + 1)) ∧
    (∀ (q : Nat → PollEvent) (N k : Nat),
      (∀ i, i < k → ∃ d, q i = PollEvent.resp d ∧ loop2Step d = StepRes.cont) →
      k < N → q k = PollEvent.transport →
      minimaxPoll q N = (PollOutcome.transportErr, k + 1)) := by
  refine ⟨?_, ?_, ?_⟩
  · intro q N h
    unfold poll_minimax_task
    have hc : ∀ i, i < N →
        ∃ d, q (0 + i) = PollEvent.resp d ∧ loop1Step d = StepRes.cont := by
      intro i hi
      exact ⟨⟨none, none, none⟩, by simpa using h i hi, by decide⟩
    have hsk := pollGo_skip q N 0 0 hc
    simpa [pollGo] using hsk
  · intro q N k h hkN hqk
    obtain ⟨r, hr⟩ : ∃ r, N - k = r + 1 := ⟨N - k - 1, by omega⟩
    unfold poll_minimax_task
    have hsk := pollGo_skip q k 0 (r + 1) (by simpa using h)
    rw [show N = k + (r + 1) by omega, hsk]
    simp only [Nat.zero_add]
    simp [pollGo, hqk]
  · intro q N k h hkN hqk
    obtain ⟨r, hr⟩ : ∃ r, N - k = r + 1 := ⟨N - k - 1, by omega⟩
    unfold minimaxPoll
    have hsk := pollGo2_skip q k 0 r (by simpa using h)
    rw [show N = k + (r + 1) by omega, hsk]
    simp only [Nat.zero_add]
    exact pollGo2_transport_head q k hqk (r + 1)

/-- Witness for C2 amended: five unparseable responses time out after 5
queries; a transport failure at the third attempt (after two good
Processing responses) propagates after exactly 3 queries in both
loops. -/
theorem c2_witness :
    poll_minimax_task (fun _ => PollEvent.resp ⟨none, none, none⟩) 5 =
      (PollOutcome.timeout, 5) ∧
    poll_minimax_task
      (fun i => if i < 2 then PollEvent.resp ⟨some "Processing", none, none⟩
                else PollEvent.transport) 240 =
      (PollOutcome.transportErr, 3) ∧
    minimaxPoll
      (fun i => if i < 2 then PollEvent.resp ⟨some "Processing", none, none⟩
                else PollEvent.transport) 240 =
      (PollOutcome.transportErr, 3) :=
  ⟨c2_amended_parse_absorbed_transport_propagates.1
      (fun _ => PollEvent.resp ⟨none, none, none⟩) 5 (fun _i _hi => rfl),
    c2_amended_parse_absorbed_transport_propagates.2.1
      (fun i => if i < 2 then PollEvent.resp ⟨some "Processing", none, none⟩
                else PollEvent.transport) 240 2
      (by
        intro i hi
        refine ⟨⟨some "Processing", none, none⟩, ?_, by decide⟩
        simp [hi])
      (by norm_num) (by norm_num),
    c2_amended_parse_absorbed_transport_propagates.2.2
      (fun i => if i < 2 then PollEvent.resp ⟨some "Processing", none, none⟩
                else PollEvent.transport) 240 2
      (by
        intro i hi
        refine ⟨⟨some "Processing", none, none⟩, ?_, by decide⟩
        simp [hi])
      (by norm_num) (by norm_num)⟩

/-- Counterexample to claim C5 as stated: a submit response that parses
and carries the task identifier "abc" does not yield a handle carrying
that identifier — `create_minimax_tts` ends with `return int(task_id)`,
and `int("abc")` raises ValueError, so submit raises instead of
returning a handle. -/
theorem c5_counterexample_nonnumeric_identifier :
    create_minimax_tts ⟨200, "", some ⟨PyVal.str "abc", PyVal.none⟩⟩ =
      .error (.badTaskId (PyVal.str "abc")) := by rfl

/-- Claim C5 amended: on a non-error submit response, when the effective
task identifier (task_id or taskId) is a truthy integer n, or a
non-empty string parsing as the decimal integer n, create_minimax_tts
returns exactly n (conjuncts 1 and 2); a truthy identifier that does not
parse as an integer is a hard failure from `int()` (conjunct 3); a
missing or falsy identifier is the no-task_id hard failure (conjunct 4);
and the minimax_poll.py submit step returns a truthy task identifier
exactly as the service sent it, and hard-fails on a falsy one
(conjuncts 5 and 6, stated for a response without base_resp). -/
theorem c5_amended_submit_identifier :
    (∀ (code : Nat) (body : String) (d : SubmitData) (n : Int),
      code < 400 → PyVal.pyOr d.task_id d.taskId = PyVal.int n → n ≠ 0 →
      create_minimax_tts ⟨code, body, some d⟩ = .ok n) ∧
    (∀ (code : Nat) (body : String) (d : SubmitData) (s : String) (n : Int),
      code < 400 → PyVal.pyOr d.task_id d.taskId = PyVal.str s → s ≠ "" →
      pyStrToInt s = some n →
      create_minimax_tts ⟨code, body, some d⟩ = .ok n) ∧
    (∀ (code : Nat) (body : String) (d : SubmitData) (s : String),
      code < 400 → PyVal.pyOr d.task_id d.taskId = PyVal.str s → s ≠ "" →
      pyStrToInt s = Option.none →
      create_minimax_tts ⟨code, body, some d⟩ =
        .error (.badTaskId (PyVal.str s))) ∧
    (∀ (code : Nat) (body : String) (d : SubmitData),
      code < 400 → (PyVal.pyOr d.task_id d.taskId).truthy = false →
      create_minimax_tts ⟨code, body, some d⟩ = .error .noTaskId) ∧
    (∀ (code : Nat) (body : String) (tid : PyVal),
      code < 400 → tid.truthy = true →
      minimaxSubmit ⟨code, body, some ⟨none, tid⟩⟩ = .ok tid) ∧
    (∀ (code : Nat) (body : String) (tid : PyVal),
      code < 400 → tid.truthy = false →
      minimaxSubmit ⟨code, body, some ⟨none, tid⟩⟩ = .error .noTaskId) := by
  refine ⟨?_, ?_, ?_, ?_, ?_, ?_⟩
  · intro code body d n hcode hid hn
    unfold create_minimax_tts
    rw [if_neg (by dsimp only; omega)]
    simp only
    rw [if_pos (by rw [hid]; simp [PyVal.truthy, hn]), hid]
    rfl
  · intro code body d s n hcode hid hs hparse
    unfold create_minimax_tts
    rw [if_neg (by dsimp only; omega)]
    simp only
    rw [if_pos (by rw [hid]; simp [PyVal.truthy, hs]), hid]
    simp [pyIntOf, hparse]
  · intro code body d s hcode hid hs hparse
    unfold create_minimax_tts
    rw [if_neg (by dsimp only; omega)]
    simp only
    rw [if_pos (by rw [hid]; simp [PyVal.truthy, hs]), hid]
    simp [pyIntOf, hparse]
  · intro code body d hcode hfalsy
    unfold create_minimax_tts
    rw [if_neg (by dsimp only; omega)]
    simp only
    rw [if_neg (by rw [hfalsy]; exact Bool.false_ne_true)]
  · intro code body tid hcode htruthy
    unfold minimaxSubmit
    rw [if_neg (by dsimp only; omega)]
    simp only
    rw [if_pos htruthy]
  · intro code body tid hcode hfalsy
    unfold minimaxSubmit
    rw [if_neg (by dsimp only; omega)]
    simp only
    rw [if_neg (by rw [hfalsy]; exact Bool.false_ne_true)]

/-- Witness for C5 amended: the numeric string identifier "42" yields
exactly the handle 42; the empty identifier is the no-task_id failure;
the minimax_poll.py submit step passes the integer identifier 42 through
unchanged. -/
theorem c5_witness :
    create_minimax_tts ⟨200, "", some ⟨PyVal.str "42", PyVal.none⟩⟩ =
      .ok 42 ∧
    create_minimax_tts ⟨200, "", some ⟨PyVal.str "", PyVal.none⟩⟩ =
      .error .noTaskId ∧
    minimaxSubmit ⟨200, "", some ⟨none, PyVal.int 42⟩⟩ = .ok (PyVal.int 42) :=
  ⟨c5_amended_submit_identifier.2.1 200 "" ⟨PyVal.str "42", PyVal.none⟩ "42" 42
      (by norm_num) (by decide) (by decide) (by decide),
    c5_amended_submit_identifier.2.2.2.1 200 "" ⟨PyVal.str "", PyVal.none⟩
      (by norm_num) (by decide),
    c5_amended_submit_identifier.2.2.2.2.1 200 "" (PyVal.int 42)
      (by norm_num) (by decide)⟩

/-- Counterexample to claim C6 as stated: the download step of
src/audio/minimax_poll.py performs no status check at all
(no raise_for_status between the GET at line 167 and the file write at
line 174), so an HTTP 404 error response does not fail — its body is
returned and written out as the artifact bytes. -/
theorem c6_counterexample_error_body_saved :
    minimaxDownload (DlEvent.resp 404 "error page") = .ok "error page" := by
  rfl

/-- Claim C6 amended: download_file in ai_minimax_tts_cli.py fails with
a transport-class error on a transport failure and on every HTTP 4xx/5xx
status, and returns the body only for a non-error status (conjuncts 1-3),
so it never returns the body of an error response; the download step of
minimax_poll.py, however, fails only on a transport failure and writes
the response body whatever the HTTP status was (conjuncts 4-5). -/
theorem c6_amended_download_status_check :
    download_file DlEvent.transport = .error .transport ∧
    (∀ (code : Nat) (body : String), 400 ≤ code → code < 600 →
      download_file (DlEvent.resp code body) = .error (.httpStatus code body)) ∧
    (∀ (code : Nat) (body : String), code < 400 →
      download_file (DlEvent.resp code body) = .ok body) ∧
    minimaxDownload DlEvent.transport = .error .transport ∧
    (∀ (code : Nat) (body : String),
      minimaxDownload (DlEvent.resp code body) = .ok body) := by
  refine ⟨rfl, ?_, ?_, rfl, ?_⟩
  · intro code body h1 h2
    simp only [download_file]
    rw [if_pos ⟨h1, h2⟩]
  · intro code body h
    simp only [download_file]
    rw [if_neg (by omega)]
  · intro code body
    rfl

/-- Witness for C6 amended: download_file rejects an HTTP 500 response
carrying its body, and accepts an HTTP 200 body unchanged. -/
theorem c6_witness :
    download_file (DlEvent.resp 500 "oops") = .error (.httpStatus 500 "oops") ∧
    download_file (DlEvent.resp 200 "MP3BYTES") = .ok "MP3BYTES" :=
  ⟨c6_amended_download_status_check.2.1 500 "oops" (by norm_num) (by norm_num),
    c6_amended_download_status_check.2.2.1 200 "MP3BYTES" (by norm_num)⟩

/-- Claim C7 (code bug): the resume path of src/audio/minimax_poll.py
does read state that exists only when submission happened in the same
process.  Started from a stored task id with polling reaching Success
with file_id "f9" and the download returning HTTP 200 bytes, the run
does not save the artifact: line 169 reads `script_dir`, which is bound
only inside the submission branch (line 32), so the script dies with a
NameError after downloading instead of saving the file. -/
theorem c7_resume_path_reads_submission_state :
    minimaxResume (fun _ => PollEvent.resp ⟨some "Success", none, some "f9"⟩)
      (DlEvent.resp 200 "MP3BYTES") = .error (.nameError "script_dir") := by
  rfl

/-- Claim C8: a submit response with an HTTP client/server error status
makes create_minimax_tts fail with the rejection error carrying exactly
the status code and response body; the submit-then-poll flow then stops
with that error having issued zero status queries (no poll is ever
attempted, and the submission is not retried — the flow consumes exactly
one submit response); the submit step of minimax_poll.py likewise stops
with the code and body before any polling. -/
theorem c8_submission_rejected_no_poll (r : SubmitResp) (r2 : SubmitResp2)
    (q : Nat → PollEvent) (N : Nat)
    (h1 : 400 ≤ r.code) (h2 : r.code < 600) (h3 : 400 ≤ r2.code) :
    create_minimax_tts r = .error (.httpError r.code r.body) ∧
    ttsFlow r q N = (.error (.submitErr (.httpError r.code r.body)), 0) ∧
    minimaxSubmit r2 = .error (.httpRejected r2.code r2.body) := by
  have hc : create_minimax_tts r = .error (.httpError r.code r.body) := by
    unfold create_minimax_tts
    rw [if_pos ⟨h1, h2⟩]
  refine ⟨hc, ?_, ?_⟩
  · unfold ttsFlow
    rw [hc]
  · unfold minimaxSubmit
    rw [if_pos h3]

/-- Witness for C8 at the spec scenario: HTTP 400 with the body
describing a bad voice id; the flow fails with code 400 and that body
after zero poll queries. -/
theorem c8_witness :
    create_minimax_tts ⟨400, "error: bad voice_id", none⟩ =
      .error (.httpError 400 "error: bad voice_id") ∧
    ttsFlow ⟨400, "error: bad voice_id", none⟩
      (fun _ => PollEvent.resp ⟨some "Processing", none, none⟩) 240 =
      (.error (.submitErr (.httpError 400 "error: bad voice_id")), 0) ∧
    minimaxSubmit ⟨400, "error: bad voice_id", none⟩ =
      .error (.httpRejected 400 "error: bad voice_id") :=
  c8_submission_rejected_no_poll ⟨400, "error: bad voice_id", none⟩
    ⟨400, "error: bad voice_id", none⟩
    (fun _ => PollEvent.resp ⟨some "Processing", none, none⟩) 240
    (by norm_num) (by norm_num) (by norm_num)

/-- Claim C10: transcribe_segment never propagates an exception — it
always returns a pair (conjunct 1: the model is total on every failure
oracle; every Python exception path is a caught value); with the client
built, all four prediction attempts failing makes it return empty text
with the error dict of the last message, sleeping
min(30, 2 ** attempt) between consecutive prediction attempts
(conjunct 2); all four client-construction attempts failing likewise
returns the empty-text error pair, with the init loop sleeping
min(10, 2 ** attempt) between attempts (conjunct 3). -/
theorem c10_transcribe_total_and_bounded_retries :
    (∀ (init : Nat → Except String Unit) (pred : Nat → Except String PredVal),
      (transcribe_segment init pred).isSome = true) ∧
    (∀ (init : Nat → Except String Unit) (pred : Nat → Except String PredVal)
        (msgs : Nat → String),
      init 1 = .ok () →
      (∀ a, 1 ≤ a → a ≤ 4 → pred a = .error (msgs a)) →
      transcribe_segment init pred =
        some ⟨"", .errorDict (msgs 4), [],
          [min 30 (2 ^ 1), min 30 (2 ^ 2), min 30 (2 ^ 3)]⟩) ∧
    (∀ (init : Nat → Except String Unit) (pred : Nat → Except String PredVal)
        (msgs : Nat → String),
      (∀ a, 1 ≤ a → a ≤ 4 → init a = .error (msgs a)) →
      transcribe_segment init pred =
        some ⟨"", .errorDict (msgs 4),
          [min 10 (2 ^ 1), min 10 (2 ^ 2), min 10 (2 ^ 3)], []⟩) := by
  have hmem : (4 : Nat) ∈ List.range' 1 4 := by decide
  have hr : List.range' 1 4 = [1, 2, 3, 4] := by decide
  refine ⟨?_, ?_, ?_⟩
  · intro init pred
    unfold transcribe_segment
    cases hI : initGo init 4 (List.range' 1 4) with
    | fellThrough => exact absurd hI (initGo_ne_fellThrough init 4 _ hmem)
    | failedOut msg ws => simp
    | built ws =>
      cases hP : predGo pred 4 (List.range' 1 4) with
      | fellThrough => exact absurd hP (predGo_ne_fellThrough pred 4 _ hmem)
      | failedOut msg pws => simp
      | done t v pws => simp
  · intro init pred msgs hinit hp
    have e1 := hp 1 (by norm_num) (by norm_num)
    have e2 := hp 2 (by norm_num) (by norm_num)
    have e3 := hp 3 (by norm_num) (by norm_num)
    have e4 := hp 4 (by norm_num) (by norm_num)
    have hI : initGo init 4 (List.range' 1 4) = .built [] := by
      rw [hr]
      simp [initGo, hinit]
    have hP : predGo pred 4 (List.range' 1 4) =
        .failedOut (msgs 4) [min 30 (2 ^ 1), min 30 (2 ^ 2), min 30 (2 ^ 3)] := by
      rw [hr]
      simp [predGo, e1, e2, e3, e4]
    unfold transcribe_segment
    rw [hI, hP]
  · intro init pred msgs hf
    have e1 := hf 1 (by norm_num) (by norm_num)
    have e2 := hf 2 (by norm_num) (by norm_num)
    have e3 := hf 3 (by norm_num) (by norm_num)
    have e4 := hf 4 (by norm_num) (by norm_num)
    have hI : initGo init 4 (List.range' 1 4) =
        .failedOut (msgs 4) [min 10 (2 ^ 1), min 10 (2 ^ 2), min 10 (2 ^ 3)] := by
      rw [hr]
      simp [initGo, e1, e2, e3, e4]
    unfold transcribe_segment
    rw [hI]

/-- Witness for C10: the client builds at once and every prediction
attempt raises "boom"; transcribe_segment returns the empty transcript
with the error dict and slept 2, 4 and 8 time units between the four
prediction attempts. -/
theorem c10_witness :
    transcribe_segment (fun _ => .ok ()) (fun _ => .error "boom") =
      some ⟨"", .errorDict "boom", [], [2, 4, 8]⟩ := by
  have h := c10_transcribe_total_and_bounded_retries.2.1
    (fun _ => .ok ()) (fun _ => .error "boom") (fun _ => "boom") rfl
    (fun _a _h1 _h2 => rfl)
  simpa using h
